import Mathlib

/-!
# Verification of the ekspressjs convergence orchestrator

Shallow embedding of the retry / readiness-polling / diagnostics core of the
`ekspressjs` EKS deployment tool (`src/aws-utils.ts`, `src/deploy.ts`,
`src/diagnose.ts`, CLI delete command), with theorems settling the spec claims.

External shell invocations (`execSync`) and AWS/Cloudflare API calls are
modelled by environments that supply, per call site, the string output the
call would have produced (or the thrown error, as `Except`/`Option`).  Wall
clock time is modelled as a `Nat` counter in seconds, advanced by the
`setTimeout` sleeps exactly as the source performs them.
-/

namespace Ekspress

/-- ASCII whitespace stripped by JS `String.prototype.trim` (the characters
that actually occur in captured command output). -/
def isJsWhitespace (c : Char) : Bool :=
  c == ' ' || c == '\t' || c == '\n' || c == '\r' || c == '\x0b' || c == '\x0c'

/-- JS `s.trim()`: strip leading and trailing whitespace. -/
def jsTrim (s : String) : String :=
  ⟨((s.data.dropWhile isJsWhitespace).reverse.dropWhile isJsWhitespace).reverse⟩

/-- Scan of the haystack for JS `haystack.includes(needle)`. -/
def strContainsAux (needle : List Char) : List Char → Bool
  | [] => needle.isPrefixOf ([] : List Char)
  | c :: rest => needle.isPrefixOf (c :: rest) || strContainsAux needle rest

/-- JS `haystack.includes(needle)`: substring containment test. -/
def strContains (haystack needle : String) : Bool :=
  strContainsAux needle.data haystack.data

/-! ## ALB controller readiness probes (`src/aws-utils.ts`)

One poll's worth of external cluster state, as the raw strings the three
`kubectl` queries return.  `none` models the `execSync` call throwing (each
probe catches that and reports not-ready); `some s` is the captured stdout
(the source's `2>/dev/null || echo ...` fallbacks make that the common case).
-/
structure ALBSnapshot where
  /-- `kubectl get pods -n kube-system -l app.kubernetes.io/name=aws-load-balancer-controller -o jsonpath='{.items[0].status.phase}' 2>/dev/null || echo ""` -/
  podPhase : Option String
  /-- `kubectl get deployment aws-load-balancer-controller -n kube-system -o jsonpath='{.status.readyReplicas}' 2>/dev/null || echo "0"` -/
  readyReplicas : Option String
  /-- `kubectl get endpoints aws-load-balancer-webhook-service -n kube-system -o jsonpath='{.subsets[*].addresses[*].ip}' 2>/dev/null || echo ""` -/
  webhookEndpoints : Option String
  deriving DecidableEq, Repr

/-- `checkALBPodReady` (aws-utils.ts:393): pod phase output trims to `Running`;
the `catch` returns `false`. -/
def checkALBPodReady (s : ALBSnapshot) : Bool :=
  match s.podPhase with
  | some out => jsTrim out == "Running"
  | none => false

/-- `checkALBDeploymentReady` (aws-utils.ts:581): the `readyReplicas` output
trims to `"1"` or `"2"`; the `catch` returns `false`. -/
def checkALBDeploymentReady (s : ALBSnapshot) : Bool :=
  match s.readyReplicas with
  | some out => jsTrim out == "1" || jsTrim out == "2"
  | none => false

/-- The webhook-endpoint test both `checkWebhookReady` (aws-utils.ts:1243-1247)
and the wait loop of `waitForALBWebhookReady` (aws-utils.ts:620-629) perform
inline: the `kubectl get endpoints aws-load-balancer-webhook-service` output
trims nonempty; a throw of the query counts as not ready. -/
def webhookEndpointsReady (s : ALBSnapshot) : Bool :=
  match s.webhookEndpoints with
  | some out => jsTrim out != ""
  | none => false

/-- `checkWebhookReady` (aws-utils.ts:1234): pod ready and deployment ready and
the webhook-service endpoint list nonempty; any `execSync` throw gives `false`. -/
def checkWebhookReady (s : ALBSnapshot) : Bool :=
  if !(checkALBPodReady s) || !(checkALBDeploymentReady s) then
    false
  else
    webhookEndpointsReady s

/-! ## `waitForALBWebhookReady` (aws-utils.ts:593-664)

The loop runs `maxIterations = ⌊maxWaitSeconds / 3⌋` iterations; the list
argument supplies the external state each iteration observes (one snapshot per
iteration).  The two Booleans are the source's `podReady` / `deploymentReady`
variables: initially `false`, and — exactly as in the source — once set they
are never probed again (`if (!podReady) podReady = await checkALBPodReady()`).
Returns the source's return value: `true` on observing webhook endpoints while
both flags are set, `false` when the iterations run out. -/
def webhookWaitLoop (podReady deploymentReady : Bool) : List ALBSnapshot → Bool
  | [] => false
  | s :: rest =>
    let podReady := if podReady then true else checkALBPodReady s
    let deploymentReady :=
      if deploymentReady then true else checkALBDeploymentReady s
    if podReady && deploymentReady then
      if webhookEndpointsReady s then true
      else webhookWaitLoop podReady deploymentReady rest
    else
      webhookWaitLoop podReady deploymentReady rest

/-- `waitForALBWebhookReady`: the poll loop started with both readiness flags
unset. -/
def waitForALBWebhookReady (snaps : List ALBSnapshot) : Bool :=
  webhookWaitLoop false false snaps

/-- Snapshot whose deployment query returned the decimal print of a replica
count `n` (what `kubectl -o jsonpath='{.status.readyReplicas}'` prints when
the deployment reports `n` ready replicas). -/
def replicasSnapshot (n : Nat) : ALBSnapshot :=
  { podPhase := some "Running", readyReplicas := some (toString n),
    webhookEndpoints := some "" }

/-! ## `applyWithRetry` (aws-utils.ts:1253-1320)

`applyWithRetry(command, maxRetries, maxWaitPerRetry)` shells out
`execSync(command)` up to `maxRetries` times; on an apply error whose message
contains the webhook-unavailability needle it waits for the webhook (polling
`checkWebhookReady` every 3 s, at most `⌊maxWaitPerRetry / 3⌋` polls, stopping
once the hard ceiling `maxTotalWait = 300` s of total elapsed time is hit) and
retries; any other error is rethrown at once.  The environment supplies the
outcome of the `i`-th apply attempt and the snapshot behind the `j`-th webhook
probe; the clock counts seconds since `startTime`, advanced by the source's
sleeps (3 s per poll, 2 s after a ready probe, 5 s after an unready wait). -/

/-- Outcome of one `execSync(command)` apply attempt. -/
inductive ApplyOutcome where
  | success : ApplyOutcome
  | failure (message : String) : ApplyOutcome
  deriving DecidableEq, Repr

/-- External world consulted by `applyWithRetry`. -/
structure ApplyEnv where
  applyResults : Nat → ApplyOutcome
  webhookSnaps : Nat → ALBSnapshot

/-- The error-message needle of aws-utils.ts:1265. -/
def webhookErrNeedle : String :=
  "no endpoints available for service \"aws-load-balancer-webhook-service\""

/-- How `applyWithRetry` left the caller. -/
inductive ApplyResult where
  | applied : ApplyResult
  | rethrown (message : String) : ApplyResult
  | gaveUp (totalElapsed : Nat) : ApplyResult
  | exhaustedRetries : ApplyResult
  deriving DecidableEq, Repr

/-- Instrumented result: outcome plus number of apply attempts, number of
webhook probes, and final clock (seconds since `startTime`). -/
structure ApplyTrace where
  result : ApplyResult
  applyCalls : Nat
  probeCalls : Nat
  elapsed : Nat
  deriving DecidableEq, Repr

/-- The inner webhook wait loop of `applyWithRetry` (aws-utils.ts:1273-1293).
`totalElapsed` is the value frozen at the catch (1263), `waitStart` the clock
at loop entry (1271); each iteration re-checks the hard ceiling against a
fresh `waitElapsed`, then probes `checkWebhookReady` afresh.  Returns
`(webhookReady, next probe index, clock)`. -/
def applyWaitLoop (env : ApplyEnv) (maxTotalWait totalElapsed waitStart : Nat) :
    Nat → Nat → Nat → Bool × Nat × Nat
  | 0, p, c => (false, p, c)
  | fuel + 1, p, c =>
    if maxTotalWait ≤ totalElapsed + (c - waitStart) then
      (false, p, c)
    else if checkWebhookReady (env.webhookSnaps p) then
      (true, p + 1, c + 2)
    else
      applyWaitLoop env maxTotalWait totalElapsed waitStart fuel (p + 1) (c + 3)

/-- The clock after the webhook wait: an extra 2 s sleep already counted on a
ready probe, a 5 s sleep when the wait ended without the webhook
(aws-utils.ts:1284, 1300). -/
def applyAfterWait (r : Bool × Nat × Nat) : Nat :=
  if r.1 then r.2.2 else r.2.2 + 5

/-- The retry loop of `applyWithRetry` (aws-utils.ts:1257-1319), `fuel` being
the remaining attempts (`maxRetries - i`; the source's `i < maxRetries - 1`
becomes `0 < fuel` in the failure branch).  The clock value `c` at the catch
is the source's `totalElapsed`, frozen for the whole inner wait. -/
def applyRetryGo (env : ApplyEnv) (maxWaitPerRetry maxTotalWait : Nat) :
    Nat → Nat → Nat → Nat → ApplyTrace
  | 0, a, p, c => ⟨.exhaustedRetries, a, p, c⟩
  | fuel + 1, a, p, c =>
    match env.applyResults a with
    | .success => ⟨.applied, a + 1, p, c⟩
    | .failure msg =>
      if strContains msg webhookErrNeedle then
        if 0 < fuel ∧ c < maxTotalWait then
          applyRetryGo env maxWaitPerRetry maxTotalWait fuel (a + 1)
            (applyWaitLoop env maxTotalWait c c (maxWaitPerRetry / 3) p c).2.1
            (applyAfterWait
              (applyWaitLoop env maxTotalWait c c (maxWaitPerRetry / 3) p c))
        else
          ⟨.gaveUp c, a + 1, p, c⟩
      else
        ⟨.rethrown msg, a + 1, p, c⟩

/-- `applyWithRetry(command, maxRetries, maxWaitPerRetry)`: clock starts at
`startTime`, `maxTotalWait = 300` (aws-utils.ts:1255). -/
def applyWithRetry (env : ApplyEnv) (maxRetries maxWaitPerRetry : Nat) :
    ApplyTrace :=
  applyRetryGo env maxWaitPerRetry 300 maxRetries 0 0 0

/-! ## The spec's `RetryPolicy` / `awaitCondition` abstraction

Modelled from the spec: the repository has no single `awaitCondition`
function — its wait loops are the ad hoc loops embedded above — while spec
§4.2/§5/§8 specify a reusable bounded-retry primitive.  The definitions below
follow the spec's words: an attempt makes at most `maxPollsPerAttempt` polls,
sleeping `pollInterval` between polls; at most `maxAttempts` attempts run; the
hard ceiling `maxTotalWait` bounds elapsed time across all attempts combined,
and the smaller effective bound wins. -/

/-- Modelled from the spec: the `RetryPolicy` configuration of spec §4.2. -/
structure RetryPolicy where
  pollInterval : Nat
  maxPollsPerAttempt : Nat
  maxAttempts : Nat
  maxTotalWait : Nat
  deriving DecidableEq, Repr

/-- Modelled from the spec: a probe's classification of one snapshot
(`ResourceCondition` restricted to what `awaitCondition` branches on). -/
inductive ProbeResult where
  | Ready : ProbeResult
  | Provisioning : ProbeResult
  | Failed (reason : String) : ProbeResult
  deriving DecidableEq, Repr

/-- Modelled from the spec: the outcome of `awaitCondition` (spec §4.2). -/
inductive AwaitOutcome where
  | Ready : AwaitOutcome
  | Failed (reason : String) : AwaitOutcome
  | Exhausted : AwaitOutcome
  deriving DecidableEq, Repr

/-- Modelled from the spec: one attempt of `awaitCondition` — up to
`maxPollsPerAttempt` fresh probes, suspending `pollInterval` between polls,
never letting elapsed time pass `maxTotalWait`.  Returns
`(terminal outcome or none when the attempt merely ran out of polls,
next probe index, elapsed)`. -/
def awaitPolls (probe : Nat → ProbeResult) (pol : RetryPolicy) :
    Nat → Nat → Nat → Option AwaitOutcome × Nat × Nat
  | 0, i, t => (none, i, t)
  | fuel + 1, i, t =>
    if pol.maxTotalWait ≤ t then (some .Exhausted, i, t)
    else
      match probe i with
      | .Ready => (some .Ready, i + 1, t)
      | .Failed r => (some (.Failed r), i + 1, t)
      | .Provisioning =>
        if pol.maxTotalWait < t + pol.pollInterval then (some .Exhausted, i + 1, t)
        else awaitPolls probe pol fuel (i + 1) (t + pol.pollInterval)

/-- Modelled from the spec: the outer attempt loop of `awaitCondition`. -/
def awaitAttempts (probe : Nat → ProbeResult) (pol : RetryPolicy) :
    Nat → Nat → Nat → AwaitOutcome × Nat × Nat
  | 0, i, t => (.Exhausted, i, t)
  | fuel + 1, i, t =>
    match awaitPolls probe pol pol.maxPollsPerAttempt i t with
    | (some o, i2, t2) => (o, i2, t2)
    | (none, i2, t2) => awaitAttempts probe pol fuel i2 t2

/-- Modelled from the spec: `awaitCondition(probe, budget)` (spec §4.2).
Returns `(outcome, probe invocations, elapsed wall-clock units)`. -/
def awaitCondition (probe : Nat → ProbeResult) (pol : RetryPolicy) :
    AwaitOutcome × Nat × Nat :=
  awaitAttempts probe pol pol.maxAttempts 0 0

/-! ## `checkAndEnsureNodes` (aws-utils.ts:63-158) -/

/-- Digit run at the head of a character list. -/
def leadingDigits : List Char → List Char
  | [] => []
  | c :: rest => if c.isDigit then c :: leadingDigits rest else []

/-- Numeric value of a digit list. -/
def digitsToNat (l : List Char) : Nat :=
  l.foldl (fun acc c => acc * 10 + (c.toNat - '0'.toNat)) 0

/-- JS `parseInt(s.trim()) || 0`: optional sign, then the leading digit run;
`NaN` (no digits at the head) collapses to `0` under `|| 0`, as does `0`
itself. -/
def jsParseIntOr0 (s : String) : Int :=
  match (jsTrim s).data with
  | '-' :: rest => -(digitsToNat (leadingDigits rest) : Int)
  | '+' :: rest => (digitsToNat (leadingDigits rest) : Int)
  | t => (digitsToNat (leadingDigits t) : Int)

/-- One node group as parsed from `eksctl get nodegroup -o json`
(aws-utils.ts:89-100); absent capacities fall to `0` via `|| 0`. -/
structure NodeGroup where
  Status : String
  Name : String
  DesiredCapacity : Option Nat
  CurrentCapacity : Option Nat
  deriving DecidableEq, Repr

/-- External world consulted by `checkAndEnsureNodes`: the captured outputs of
its shell invocations.  `nodeGroups = .error e` models the `eksctl get
nodegroup` call or the `JSON.parse` of its output throwing (the `|| echo "[]"`
fallback makes the exec itself total, but the parse can still throw on
malformed output); `scaleOutcome` / `createOutcome` are the `eksctl scale|create
nodegroup` invocations, which run with `stdio: 'inherit'` and throw on a
nonzero exit. -/
structure NodesEnv where
  nodeCountOut : String
  readyCountOut : String
  nodeGroups : Except String (List NodeGroup)
  scaleOutcome : Except String Unit
  createOutcome : Except String Unit
  pollReadyOuts : Nat → String

/-- aws-utils.ts:151. -/
def nodesNotReadyMsg : String :=
  "Nodes did not become ready after 10 minutes. Please check node group status manually."

/-- aws-utils.ts:127. -/
def clusterHasNoNodesMsg : String :=
  "Cluster has no nodes. Please create a node group and try again."

/-- The inner node-group block (aws-utils.ts:88-128): its own `try`; any throw
inside it (fetch/parse, `eksctl scale`, `eksctl create`) is caught and
re-raised as the fixed `Cluster has no nodes...` error; the branches that only
log fall through normally. -/
def ensureNodeGroups (env : NodesEnv) : Except String Unit :=
  match env.nodeGroups with
  | .error _ => .error clusterHasNoNodesMsg
  | .ok groups =>
    if 0 < groups.length then
      match groups.filter (fun ng => ng.Status == "ACTIVE") with
      | ng :: _ =>
        if ng.CurrentCapacity.getD 0 == 0 && ng.DesiredCapacity.getD 0 == 0 then
          match env.scaleOutcome with
          | .ok _ => .ok ()
          | .error _ => .error clusterHasNoNodesMsg
        else .ok ()
      | [] => .ok ()
    else
      match env.createOutcome with
      | .ok _ => .ok ()
      | .error _ => .error clusterHasNoNodesMsg

/-- The readiness poll loop (aws-utils.ts:131-151): 60 polls, 10 s apart;
returns normally on the first positive ready count, else throws the
`Nodes did not become ready...` error. -/
def nodesPollLoop (env : NodesEnv) : Nat → Nat → Except String Unit
  | 0, _ => .error nodesNotReadyMsg
  | fuel + 1, i =>
    if 0 < jsParseIntOr0 (env.pollReadyOuts i) then .ok ()
    else nodesPollLoop env fuel (i + 1)

/-- The body of the outer `try` of `checkAndEnsureNodes` (aws-utils.ts:64-151):
early return when the cluster already has a ready node, otherwise the
node-group block followed by the poll loop. -/
def checkAndEnsureNodesBody (env : NodesEnv) : Except String Unit :=
  if 0 < jsParseIntOr0 env.nodeCountOut &&
      0 < jsParseIntOr0 env.readyCountOut then
    .ok ()
  else
    match ensureNodeGroups env with
    | .error e => .error e
    | .ok _ => nodesPollLoop env 60 0

/-- `checkAndEnsureNodes` with its outer catch (aws-utils.ts:152-157): rethrow
exactly when the message contains `Nodes did not become ready`; every other
error is logged as a warning and the function returns normally. -/
def checkAndEnsureNodes (env : NodesEnv) : Except String Unit :=
  match checkAndEnsureNodesBody env with
  | .ok _ => .ok ()
  | .error m =>
    if strContains m "Nodes did not become ready" then .error m else .ok ()

/-! ## Certificate handling in `waitForIngressAndSetupDNS` (aws-utils.ts:1577-1780)

Once the ALB hostname is known and `domain.enableSSL && domain.certificateARN`
holds, the step describes the certificate and branches on its status.  The
environment supplies the describe results; the trace records how many in-loop
describes ran, whether a replacement certificate was requested
(`RequestCertificateCommand`, aws-utils.ts:1691-1700), whether the HTTPS
annotations were applied, and whether `config.domain.certificateARN` was
overwritten (aws-utils.ts:1728). -/

/-- External certificate/DNS world for one run of the certificate section. -/
structure CertEnv where
  /-- `Certificate.Status` of the describe at entry (aws-utils.ts:1586-1588). -/
  initialStatus : String
  /-- statuses seen by the wait loop on the original ARN (aws-utils.ts:1629-1631). -/
  pollStatuses : Nat → String
  /-- `cloudflareApiToken && cloudflareZoneId` both present. -/
  hasCloudflare : Bool
  /-- ARN returned by `RequestCertificateCommand` (`none`: the request threw or
  returned no ARN, caught at aws-utils.ts:1769). -/
  newCertARN : Option String
  /-- statuses seen by the wait loop on the replacement ARN (aws-utils.ts:1719-1721). -/
  newCertPollStatuses : Nat → String

/-- What the certificate section did. -/
structure CertFlowTrace where
  pollsMade : Nat
  newCertRequested : Bool
  httpsEnabled : Bool
  configCertARNUpdated : Bool
  deriving DecidableEq, Repr

/-- The 60-iteration validation wait loop (aws-utils.ts:1626-1665 and its copy
1716-1756): sleep 10 s, describe; `ISSUED` → validated, break; `FAILED` or
`VALIDATION_TIMED_OUT` → break at once without further polls; anything else →
next iteration.  Returns `(validated, describes performed, terminal status
observed)`. -/
def certWaitLoop (statuses : Nat → String) : Nat → Nat → Bool × Nat × Bool
  | 0, polls => (false, polls, false)
  | fuel + 1, polls =>
    let status := statuses polls
    if status == "ISSUED" then (true, polls + 1, false)
    else if status == "FAILED" || status == "VALIDATION_TIMED_OUT" then
      (false, polls + 1, true)
    else certWaitLoop statuses fuel (polls + 1)

/-- The certificate section of `waitForIngressAndSetupDNS`, branch by branch:

* `ISSUED` (1590): annotate HTTPS, no polling, no new certificate;
* `PENDING_VALIDATION` (1615): with Cloudflare credentials, set up validation
  records and run the wait loop; `ISSUED` mid-loop → annotate HTTPS; a
  terminal status mid-loop only logs `Will attempt to request new
  certificate...` and breaks (1654-1658) — control then reaches the
  `if (!validated)` logging (1667) and leaves the branch, sending no
  `RequestCertificateCommand`;
* `VALIDATION_TIMED_OUT` / `FAILED` at entry (1677): request a replacement
  certificate; if an ARN came back and Cloudflare credentials exist, run the
  wait loop on the new ARN; `ISSUED` mid-loop → overwrite
  `config.domain.certificateARN` and annotate HTTPS;
* any other status (1773): log only. -/
def certFlow (env : CertEnv) : CertFlowTrace :=
  let status := env.initialStatus
  if status == "ISSUED" then
    ⟨0, false, true, false⟩
  else if status == "PENDING_VALIDATION" then
    if env.hasCloudflare then
      let r := certWaitLoop env.pollStatuses 60 0
      ⟨r.2.1, false, r.1, false⟩
    else ⟨0, false, false, false⟩
  else if status == "VALIDATION_TIMED_OUT" || status == "FAILED" then
    match env.newCertARN with
    | none => ⟨0, true, false, false⟩
    | some _ =>
      if env.hasCloudflare then
        let r := certWaitLoop env.newCertPollStatuses 60 0
        ⟨r.2.1, true, r.1, r.1⟩
      else ⟨0, true, false, false⟩
  else ⟨0, false, false, false⟩

/-! ## The delete command (CLI, `delete` action)

After the user picks `appName`, the action deletes `deployment appName`,
`service appName-service`, `ingress appName-ingress`, `hpa appName-hpa`, each
via `kubectl delete <type> <name> -n <ns> --ignore-not-found` inside its own
`try`/`catch` that never rethrows.  The namespace is fixed for the whole run,
so cluster state is the list of `(type, name)` resources present in it.
`kubectl delete --ignore-not-found` semantics: an absent resource exits 0 and
changes nothing; a present resource is removed (exit 0) unless the
environment makes that delete fail (API/permission error), in which case the
command exits nonzero and the resource stays. -/

/-- Which deletes fail, and with what message. -/
structure DeleteEnv where
  blocked : String × String → Bool
  errMsg : String × String → String

/-- Cluster state: the `(type, name)` resources present in the namespace. -/
structure ClusterState where
  present : List (String × String)
  deriving DecidableEq, Repr

/-- One `kubectl delete <type> <name> --ignore-not-found` invocation. -/
def kubectlDeleteIgnoreNotFound (env : DeleteEnv) (st : ClusterState)
    (r : String × String) : Except String Unit × ClusterState :=
  if r ∈ st.present then
    if env.blocked r then (.error (env.errMsg r), st)
    else (.ok (), ⟨st.present.filter (fun x => decide (x ≠ r))⟩)
  else
    (.ok (), st)

/-- The deletion loop (CLI delete action): each resource's delete runs in its
own `try`; the `catch` only logs, so the loop always advances to the next
resource.  Returns the per-resource outcomes in order and the final state. -/
def deleteResourcesLoop (env : DeleteEnv) :
    List (String × String) → ClusterState →
    List (Except String Unit) × ClusterState
  | [], st => ([], st)
  | r :: rest, st =>
    let step := kubectlDeleteIgnoreNotFound env st r
    let next := deleteResourcesLoop env rest step.2
    (step.1 :: next.1, next.2)

/-- The fixed resource list of the delete action for application `appName`. -/
def deleteTargets (appName : String) : List (String × String) :=
  [("deployment", appName),
   ("service", appName ++ "-service"),
   ("ingress", appName ++ "-ingress"),
   ("hpa", appName ++ "-hpa")]

/-- The whole deletion pass for one application. -/
def runDeletion (env : DeleteEnv) (appName : String) (st : ClusterState) :
    List (Except String Unit) × ClusterState :=
  deleteResourcesLoop env (deleteTargets appName) st

/-! ## Diagnostics: `showALBDiagnostics` (aws-utils.ts:430-579) and
`diagnoseDeploymentFailure` (diagnose.ts:70-127)

Each `execSync` either yields captured output (`.ok`) or throws (`.error`).
`showALBDiagnostics` wraps every collection block in its own `try` whose
`catch` at most logs; the report records what each block obtained. -/

/-- Pod status assembled by `getALBPodStatus` (aws-utils.ts:405-428); the
function catches everything and returns `null` on any failure — modelled as
the environment field already being the `Option`. -/
structure ALBPodStatus where
  phase : String
  reason : Option String
  message : Option String
  deriving DecidableEq, Repr

/-- External world consulted by `showALBDiagnostics`: one field per collection
call, in source order. -/
structure ALBDiagEnv where
  /-- `getALBPodStatus()` (total: internally caught). -/
  podStatus : Option ALBPodStatus
  /-- `kubectl get pods ... -o wide`. -/
  podInfo : Except String String
  /-- `kubectl logs ... --tail=10`. -/
  podLogs : Except String String
  /-- `kubectl get events -n kube-system ...`. -/
  events : Except String String
  /-- `kubectl get nodes`. -/
  nodes : Except String String
  /-- `kubectl top nodes`. -/
  nodeResources : Except String String
  /-- `eksctl get nodegroup ...`. -/
  nodeGroups : Except String String

/-- The report `showALBDiagnostics` prints: which sections produced content.
The routine itself returns `Promise<void>`; the report materialises its
console output so the independence of the blocks is statable. -/
structure ALBDiagReport where
  podStatusShown : Option ALBPodStatus
  podInfoShown : Option String
  logsShown : Option String
  eventsShown : Option String
  nodesShown : Option String
  nodeResourcesShown : Option String
  nodeGroupsShown : Option String
  deriving DecidableEq, Repr

/-- One guarded collection block: `try { out = exec(...) } catch {}` — the
failure is swallowed, the section simply stays empty. -/
def guardedFetch (r : Except String String) : Option String :=
  match r with
  | .ok out => some out
  | .error _ => none

/-- `showALBDiagnostics`: seven collection blocks, each inside its own
`try`/`catch` that never rethrows, executed in sequence; the function always
returns. -/
def showALBDiagnostics (env : ALBDiagEnv) : ALBDiagReport :=
  let r1 := env.podStatus
  let r2 := guardedFetch env.podInfo
  let r3 := guardedFetch env.podLogs
  let r4 := guardedFetch env.events
  let r5 := guardedFetch env.nodes
  let r6 := guardedFetch env.nodeResources
  let r7 := guardedFetch env.nodeGroups
  ⟨r1, r2, r3, r4, r5, r6, r7⟩

/-- External world consulted by `diagnoseDeploymentFailure` (diagnose.ts). -/
structure DiagnoseEnv where
  /-- `kubectl get pods -n ns -l app=<name> -o wide` (diagnose.ts:75). -/
  podsOut : Except String String
  /-- newest pod name query (diagnose.ts:108-111), then `.trim()`. -/
  podNameOut : Except String String
  /-- `kubectl describe pod <name> | grep -A 10 "Events:"` (diagnose.ts:115). -/
  describeEventsOut : Except String Unit
  /-- `kubectl logs <name> --tail=20` (diagnose.ts:119). -/
  logsOut : Except String Unit

/-- What `diagnoseDeploymentFailure` did; `logsAttempted` records whether
control reached the `kubectl logs` call at all. -/
structure DiagnoseReport where
  podsFetched : Bool
  issues : List String
  eventsFetched : Bool
  logsAttempted : Bool
  logsFetched : Bool
  deriving DecidableEq, Repr

/-- `diagnoseDeploymentFailure` (diagnose.ts:70-127).  Block 1 (pods + issue
classification) has its own `try`.  Block 2 is a single `try` holding the pod
name query, the `describe pod ... Events` call and — nested in an inner `try`
of its own — the log fetch: the outer `catch` (diagnose.ts:124) only logs, but
a throw of the name query or of the describe call skips the log fetch.  JS
`if (podName)`: the empty string is falsy.  The function always returns. -/
def diagnoseDeploymentFailure (env : DiagnoseEnv) : DiagnoseReport :=
  let block1 :=
    match env.podsOut with
    | .error _ => (false, ([] : List String))
    | .ok pods =>
      let issues :=
        (if strContains pods "ImagePullBackOff" || strContains pods "ErrImagePull"
         then ["ImagePullBackOff"] else []) ++
        (if strContains pods "CreateContainerConfigError"
         then ["CreateContainerConfigError"] else []) ++
        (if strContains pods "Pending" then ["Pending"] else [])
      (true, issues)
  let block2 :=
    match env.podNameOut with
    | .error _ => (false, false, false)
    | .ok nameOut =>
      if jsTrim nameOut == "" then (false, false, false)
      else
        match env.describeEventsOut with
        | .error _ => (false, false, false)
        | .ok _ =>
          match env.logsOut with
          | .ok _ => (true, true, true)
          | .error _ => (true, true, false)
  ⟨block1.1, block1.2, block2.1, block2.2.1, block2.2.2⟩

/-! ## `DeploymentSpec` mutation (C6): `deployToEKS` (deploy.ts) and the
certificate replacement (aws-utils.ts:1728)

The config record, from `AWSConfig` (prompts.ts:164-182) plus the `appType`
and `artifactDir` fields `deployToEKS` uses; the `resources`, `autoscaling`,
`envVars`, `secrets`, `configMaps` fields are carried opaquely (nothing in the
pipeline writes them — the only pipeline-time writes in the sources are
deploy.ts:26, deploy.ts:45 and aws-utils.ts:1728). -/

/-- `DomainConfig` as used by the pipeline. -/
structure DomainCfg where
  domain : String
  subdomain : Option String
  enableSSL : Bool
  certificateARN : Option String
  cloudflareApiToken : Option String
  cloudflareZoneId : Option String
  deriving DecidableEq, Repr

/-- The deployment config value passed to `deployToEKS`. -/
structure DeployCfg where
  appType : String
  region : String
  clusterName : String
  appName : String
  port : Nat
  replicas : Nat
  accessKeyId : String
  secretAccessKey : String
  imageRegistry : Option String
  nspace : Option String
  enableIngress : Bool
  domain : Option DomainCfg
  healthCheckPath : Option String
  artifactDir : Option String
  envPairs : List (String × String)
  secretPairs : List (String × String)
  deriving DecidableEq, Repr

/-- The writes `deployToEKS` performs on its config before the manifests are
generated (deploy.ts:22-47): `config.artifactDir = artifactsDir` (line 26),
and — when the domain step ran and returned an ARN while none was set —
`config.domain.certificateARN = certificateARN` (lines 43-46;
`setupDomainResult` is what `setupDomain(config)` returned, `none` when the
domain/SSL branch was not taken or yielded nothing). -/
def deployToEKSConfigWrites (c : DeployCfg) (artifactsDir : String)
    (setupDomainResult : Option String) : DeployCfg :=
  match c.domain, setupDomainResult with
  | some d, some arn =>
    if d.enableSSL && d.certificateARN.isNone then
      { c with artifactDir := some artifactsDir,
               domain := some { d with certificateARN := some arn } }
    else { c with artifactDir := some artifactsDir }
  | _, _ => { c with artifactDir := some artifactsDir }

/-- The write the certificate-replacement path of `waitForIngressAndSetupDNS`
performs on the config (aws-utils.ts:1728): when the entry status was terminal
(`VALIDATION_TIMED_OUT`/`FAILED`), a replacement ARN was obtained and its
validation succeeded, `config.domain.certificateARN` is overwritten. -/
def ingressWaitConfigWrites (c : DeployCfg) (env : CertEnv) : DeployCfg :=
  match c.domain with
  | none => c
  | some d =>
    if (certFlow env).configCertARNUpdated then
      { c with domain := some { d with certificateARN := env.newCertARN } }
    else c

/-- Componentwise equality of the domain sub-config with the
`certificateARN` field exempted (the frame the pipeline must preserve). -/
def domainFrameEq (d1 d2 : Option DomainCfg) : Prop :=
  match d1, d2 with
  | none, none => True
  | some a, some b =>
    a.domain = b.domain ∧ a.subdomain = b.subdomain ∧
    a.enableSSL = b.enableSSL ∧ a.cloudflareApiToken = b.cloudflareApiToken ∧
    a.cloudflareZoneId = b.cloudflareZoneId
  | _, _ => False

/-! ## Concrete scenario environments used by witnesses and counterexamples -/

/-- Spec §8 webhook-race scenario: the first apply fails with the webhook
error; the controller deployment is ready from the first poll onwards but the
endpoint list is empty for the first 3 polls and populates from the 4th; the
retried apply succeeds. -/
def webhookRaceEnv : ApplyEnv where
  applyResults := fun i => if i == 0 then .failure webhookErrNeedle else .success
  webhookSnaps := fun j =>
    if j < 3 then ⟨some "Running", some "1", some ""⟩
    else ⟨some "Running", some "1", some "10.0.42.7"⟩

/-- An apply environment whose first attempt fails with a non-webhook error. -/
def badManifestEnv : ApplyEnv where
  applyResults := fun _ => .failure "The Deployment \"myapp\" is invalid"
  webhookSnaps := fun _ => ⟨none, none, none⟩

/-- Spec §8 certificate scenario: entry status `PENDING_VALIDATION`, then five
pending polls followed by `VALIDATION_TIMED_OUT`; a replacement ARN would be
available and would validate at once. -/
def certTimeoutEnv : CertEnv where
  initialStatus := "PENDING_VALIDATION"
  pollStatuses := fun i =>
    if i < 5 then "PENDING_VALIDATION" else "VALIDATION_TIMED_OUT"
  hasCloudflare := true
  newCertARN := some "arn:aws:acm:us-east-1:123456789012:certificate/fresh"
  newCertPollStatuses := fun _ => "ISSUED"

/-- A nodes environment: empty cluster, node-group inspection throws, polls
never see a ready node. -/
def noNodeGroupsEnv : NodesEnv where
  nodeCountOut := "0"
  readyCountOut := "0"
  nodeGroups := .error "eksctl: connection refused"
  scaleOutcome := .ok ()
  createOutcome := .ok ()
  pollReadyOuts := fun _ => "0"

/-- A concrete deployment config with no artifact directory and no certificate
yet. -/
def baseCfg : DeployCfg where
  appType := "next"
  region := "us-east-1"
  clusterName := "demo"
  appName := "myapp"
  port := 3000
  replicas := 2
  accessKeyId := "AKIAEXAMPLE"
  secretAccessKey := "secret"
  imageRegistry := none
  nspace := none
  enableIngress := true
  domain := some ⟨"example.com", some "app", true, none, some "tok", some "zone"⟩
  healthCheckPath := none
  artifactDir := none
  envPairs := []
  secretPairs := []

/-! # Theorems -/

/-! ## C4 — controller-deployment readiness probe -/

/-- C4 counterexample: the claim says the probe is ready for every snapshot
with `readyReplicas ≥ 1`, but a deployment reporting 3 ready replicas (output
`"3"`) is classified not ready by `checkALBDeploymentReady`. -/
theorem C4_counterexample :
    1 ≤ 3 ∧ checkALBDeploymentReady (replicasSnapshot 3) = false := by
  decide

/-- C4 (amended): `checkALBDeploymentReady` classifies the controller
deployment as ready exactly when the `readyReplicas` query output trims to
`"1"` or `"2"`; in particular ready for counts 1 and 2, and not ready for
count 0, for an absent value, and for any count of 3. -/
theorem C4_ready_iff_one_or_two :
    (∀ s : ALBSnapshot,
        checkALBDeploymentReady s = true ↔
          ∃ out, s.readyReplicas = some out ∧
            (jsTrim out = "1" ∨ jsTrim out = "2")) ∧
    checkALBDeploymentReady (replicasSnapshot 1) = true ∧
    checkALBDeploymentReady (replicasSnapshot 2) = true ∧
    checkALBDeploymentReady (replicasSnapshot 0) = false ∧
    checkALBDeploymentReady (replicasSnapshot 3) = false ∧
    checkALBDeploymentReady ⟨some "Running", none, some ""⟩ = false := by
  refine ⟨fun s => ?_, by decide, by decide, by decide, by decide, by decide⟩
  cases h : s.readyReplicas with
  | none => simp [checkALBDeploymentReady, h]
  | some out =>
    simp only [checkALBDeploymentReady, h, Bool.or_eq_true, beq_iff_eq,
      Option.some.injEq]
    constructor
    · rintro (h1 | h2)
      · exact ⟨out, rfl, Or.inl h1⟩
      · exact ⟨out, rfl, Or.inr h2⟩
    · rintro ⟨o, rfl, (h1 | h2)⟩
      · exact Or.inl h1
      · exact Or.inr h2

/-! ## C5 — the webhook wait loop latches its readiness flags -/

/-- C5 counterexample: the claim says pod and deployment readiness are
re-derived from fresh probes every iteration, so a pod that stops being ready
between iterations is observed as not ready on the next poll.  On the trace
[pod Running / deployment ready / endpoints empty,
 pod Pending / 0 replicas / endpoints populated]
the loop nevertheless returns ready at the second iteration, although both
probes are false on that iteration's snapshot. -/
theorem C5_counterexample :
    waitForALBWebhookReady
        [⟨some "Running", some "1", some ""⟩,
         ⟨some "Pending", some "0", some "10.0.42.7"⟩] = true ∧
    checkALBPodReady ⟨some "Pending", some "0", some "10.0.42.7"⟩ = false ∧
    checkALBDeploymentReady ⟨some "Pending", some "0", some "10.0.42.7"⟩ = false := by
  decide

/-- C5 (amended): in `waitForALBWebhookReady`, only the webhook-endpoint
condition is re-derived from a fresh probe every iteration; the pod and
deployment flags are latched — probed each iteration only until first
observed ready and then cached for the rest of the loop, so an iteration run
with both flags set ignores the pod and deployment state of its snapshot
entirely.  While a flag is still unset, it is re-derived freshly from the
current iteration's snapshot. -/
theorem C5_flags_latched :
    (∀ (p r e p2 r2 : Option String) (rest : List ALBSnapshot),
        webhookWaitLoop true true (⟨p, r, e⟩ :: rest) =
          webhookWaitLoop true true (⟨p2, r2, e⟩ :: rest)) ∧
    (∀ (s : ALBSnapshot) (rest : List ALBSnapshot),
        webhookWaitLoop true true (s :: rest) =
          (webhookEndpointsReady s || webhookWaitLoop true true rest)) ∧
    (∀ (s : ALBSnapshot) (rest : List ALBSnapshot),
        webhookWaitLoop false false (s :: rest) =
          if checkALBPodReady s && checkALBDeploymentReady s then
            (webhookEndpointsReady s || webhookWaitLoop true true rest)
          else
            webhookWaitLoop (checkALBPodReady s) (checkALBDeploymentReady s)
              rest) := by
  refine ⟨?_, ?_, ?_⟩
  · intro p r e p2 r2 rest
    simp [webhookWaitLoop, webhookEndpointsReady]
  · intro s rest
    cases h : webhookEndpointsReady s <;> simp [webhookWaitLoop, h]
  · intro s rest
    cases hp : checkALBPodReady s <;> cases hd : checkALBDeploymentReady s <;>
      cases he : webhookEndpointsReady s <;>
        simp [webhookWaitLoop, hp, hd, he]

/-! ## C1 — webhook readiness needs deployment *and* endpoints -/

/-- C1: `checkWebhookReady` classifies the controller as ready only under the
double condition — for every snapshot in which the deployment is ready but the
endpoint list is empty it returns `false`; the webhook wait loop inside
`applyWithRetry` reports the webhook ready only when some poll's fresh
snapshot satisfied the full `checkWebhookReady` condition; and on the spec's
webhook-race trace (deployment ready immediately, endpoints empty for 3 polls,
populated from the 4th) the blocked apply is retried successfully exactly
after the 4th probe. -/
theorem C1_webhook_double_condition :
    (∀ (s : ALBSnapshot) (out : String),
        checkALBDeploymentReady s = true →
        s.webhookEndpoints = some out → jsTrim out = "" →
        checkWebhookReady s = false) ∧
    (∀ (env : ApplyEnv) (mtw te ws fuel p c : Nat),
        (applyWaitLoop env mtw te ws fuel p c).1 = true →
        ∃ j, p ≤ j ∧ j < p + fuel ∧
          checkWebhookReady (env.webhookSnaps j) = true) ∧
    applyWithRetry webhookRaceEnv 15 60 =
      { result := .applied, applyCalls := 2, probeCalls := 4, elapsed := 11 } := by
  refine ⟨?_, ?_, by decide⟩
  · intro s out _ he ht
    unfold checkWebhookReady
    split
    · rfl
    · simp [webhookEndpointsReady, he, ht]
  · intro env mtw te ws fuel
    induction fuel with
    | zero => intro p c h; simp [applyWaitLoop] at h
    | succ n ih =>
      intro p c h
      unfold applyWaitLoop at h
      split at h
      · simp at h
      · split at h
        · rename_i hready
          exact ⟨p, le_refl p, by omega, hready⟩
        · obtain ⟨j, hj1, hj2, hj⟩ := ih (p + 1) (c + 3) h
          exact ⟨j, by omega, by omega, hj⟩

/-- C1 witness: the theorem applied to a concrete snapshot whose deployment is
ready (2 replicas) while the endpoint list is empty. -/
theorem C1_witness :
    checkWebhookReady ⟨some "Running", some "2", some ""⟩ = false :=
  C1_webhook_double_condition.1 ⟨some "Running", some "2", some ""⟩ ""
    (by decide) rfl rfl

/-! ## C9 — only the webhook error is retried -/

/-- C9: for every apply error whose message does not contain the
webhook-unavailability needle, `applyWithRetry` rethrows that error unchanged
on its first occurrence — one apply call, zero webhook probes, zero waiting. -/
theorem C9_nonwebhook_error_rethrown :
    ∀ (env : ApplyEnv) (maxRetries maxWaitPerRetry : Nat) (msg : String),
      0 < maxRetries →
      env.applyResults 0 = .failure msg →
      strContains msg webhookErrNeedle = false →
      applyWithRetry env maxRetries maxWaitPerRetry =
        { result := .rethrown msg, applyCalls := 1, probeCalls := 0,
          elapsed := 0 } := by
  intro env maxRetries mwpr msg hpos happly hmsg
  obtain ⟨k, rfl⟩ : ∃ k, maxRetries = k + 1 := ⟨maxRetries - 1, by omega⟩
  unfold applyWithRetry applyRetryGo
  rw [happly]
  simp [hmsg]

/-- C9 witness: a first apply failing with an unrelated manifest-validation
error is rethrown at once. -/
theorem C9_witness :
    applyWithRetry badManifestEnv 10 60 =
      { result := .rethrown "The Deployment \"myapp\" is invalid",
        applyCalls := 1, probeCalls := 0, elapsed := 0 } :=
  C9_nonwebhook_error_rethrown badManifestEnv 10 60
    "The Deployment \"myapp\" is invalid" (by decide) rfl (by decide)

/-! ## C3 — two independent ceilings on every wait -/

/-- One `awaitCondition` attempt: elapsed time never passes the hard ceiling it
started under, and at most `fuel` probes run. -/
theorem awaitPolls_bounds (probe : Nat → ProbeResult) (pol : RetryPolicy) :
    ∀ (fuel i t : Nat), t ≤ pol.maxTotalWait →
      (awaitPolls probe pol fuel i t).2.2 ≤ pol.maxTotalWait ∧
      (awaitPolls probe pol fuel i t).2.1 ≤ i + fuel := by
  intro fuel
  induction fuel with
  | zero => intro i t ht; exact ⟨ht, Nat.le_add_right i 0⟩
  | succ n ih =>
    intro i t ht
    have hstep : i + 1 ≤ i + (n + 1) :=
      Nat.add_le_add_left (Nat.succ_le_succ (Nat.zero_le n)) i
    unfold awaitPolls
    split
    · exact ⟨ht, Nat.le_add_right i (n + 1)⟩
    · split
      · exact ⟨ht, hstep⟩
      · exact ⟨ht, hstep⟩
      · split
        · exact ⟨ht, hstep⟩
        · have h2 := ih (i + 1) (t + pol.pollInterval) (by omega)
          refine ⟨h2.1, ?_⟩
          calc (awaitPolls probe pol n (i + 1) (t + pol.pollInterval)).2.1
              ≤ (i + 1) + n := h2.2
            _ = i + (n + 1) := by omega

/-- All `awaitCondition` attempts combined: elapsed ≤ `maxTotalWait`, probes
≤ `fuel · maxPollsPerAttempt`. -/
theorem awaitAttempts_bounds (probe : Nat → ProbeResult) (pol : RetryPolicy) :
    ∀ (fuel i t : Nat), t ≤ pol.maxTotalWait →
      (awaitAttempts probe pol fuel i t).2.2 ≤ pol.maxTotalWait ∧
      (awaitAttempts probe pol fuel i t).2.1 ≤
        i + fuel * pol.maxPollsPerAttempt := by
  intro fuel
  induction fuel with
  | zero =>
    intro i t ht
    refine ⟨ht, ?_⟩
    simp [awaitAttempts]
  | succ n ih =>
    intro i t ht
    have hb := awaitPolls_bounds probe pol pol.maxPollsPerAttempt i t ht
    unfold awaitAttempts
    rcases hres : awaitPolls probe pol pol.maxPollsPerAttempt i t with ⟨o, i2, t2⟩
    rw [hres] at hb
    cases o with
    | some o2 =>
      refine ⟨hb.1, ?_⟩
      show i2 ≤ i + (n + 1) * pol.maxPollsPerAttempt
      calc i2 ≤ i + pol.maxPollsPerAttempt := hb.2
        _ ≤ i + (n * pol.maxPollsPerAttempt + pol.maxPollsPerAttempt) :=
            Nat.add_le_add_left
              (Nat.le_add_left pol.maxPollsPerAttempt
                (n * pol.maxPollsPerAttempt)) i
        _ = i + (n + 1) * pol.maxPollsPerAttempt := by ring
    | none =>
      have h2 := ih i2 t2 hb.1
      refine ⟨h2.1, ?_⟩
      show (awaitAttempts probe pol n i2 t2).2.1 ≤
        i + (n + 1) * pol.maxPollsPerAttempt
      calc (awaitAttempts probe pol n i2 t2).2.1
          ≤ i2 + n * pol.maxPollsPerAttempt := h2.2
        _ ≤ (i + pol.maxPollsPerAttempt) + n * pol.maxPollsPerAttempt :=
            Nat.add_le_add_right hb.2 _
        _ = i + (n + 1) * pol.maxPollsPerAttempt := by ring

/-- The inner webhook wait of `applyWithRetry` makes at most `fuel` probes. -/
theorem applyWaitLoop_probes_le (env : ApplyEnv) (mtw te ws : Nat) :
    ∀ (fuel p c : Nat),
      (applyWaitLoop env mtw te ws fuel p c).2.1 ≤ p + fuel := by
  intro fuel
  induction fuel with
  | zero => intro p c; exact Nat.le_add_right p 0
  | succ n ih =>
    intro p c
    have hstep : p + 1 ≤ p + (n + 1) :=
      Nat.add_le_add_left (Nat.succ_le_succ (Nat.zero_le n)) p
    unfold applyWaitLoop
    split
    · exact Nat.le_add_right p (n + 1)
    · split
      · exact hstep
      · calc (applyWaitLoop env mtw te ws n (p + 1) (c + 3)).2.1
            ≤ (p + 1) + n := ih (p + 1) (c + 3)
          _ = p + (n + 1) := by omega

/-- The inner webhook wait never advances the clock past
`maxTotalWait + 2`: every probe fires while the frozen `totalElapsed` plus
the fresh `waitElapsed` is still below the hard ceiling. -/
theorem applyWaitLoop_clock_le (env : ApplyEnv) (mtw : Nat) :
    ∀ (fuel p c c0 : Nat), c0 ≤ c →
      (applyWaitLoop env mtw c0 c0 fuel p c).2.2 ≤ max c (mtw + 2) := by
  intro fuel
  induction fuel with
  | zero => intro p c c0 _; exact le_max_left _ _
  | succ n ih =>
    intro p c c0 h0
    unfold applyWaitLoop
    split
    · exact le_max_left _ _
    · rename_i hnot
      have hc : c < mtw := by omega
      split
      · exact le_trans (by omega : c + 2 ≤ mtw + 2) (le_max_right _ _)
      · have h3 := ih (p + 1) (c + 3) c0 (by omega)
        have hmax : max (c + 3) (mtw + 2) = mtw + 2 :=
          Nat.max_eq_right (by omega)
        rw [hmax] at h3
        exact le_trans h3 (le_max_right _ _)

/-- The whole retry loop respects both ceilings: probes are bounded by
`fuel · ⌊maxWaitPerRetry/3⌋`, and the clock never passes `maxTotalWait`
by more than the fixed post-wait sleeps (7 s), however large `fuel` and
`maxWaitPerRetry` are. -/
theorem applyRetryGo_bounds (env : ApplyEnv) (mwpr mtw : Nat) :
    ∀ (fuel a p c : Nat),
      (applyRetryGo env mwpr mtw fuel a p c).probeCalls ≤
        p + fuel * (mwpr / 3) ∧
      (applyRetryGo env mwpr mtw fuel a p c).elapsed ≤ max c (mtw + 7) := by
  intro fuel
  induction fuel with
  | zero =>
    intro a p c
    refine ⟨?_, le_max_left _ _⟩
    simp [applyRetryGo]
  | succ n ih =>
    intro a p c
    unfold applyRetryGo
    split
    · exact ⟨Nat.le_add_right p _, le_max_left _ _⟩
    · split
      · split
        · rename_i hcond
          have hw := ih (a + 1)
            (applyWaitLoop env mtw c c (mwpr / 3) p c).2.1
            (applyAfterWait (applyWaitLoop env mtw c c (mwpr / 3) p c))
          have hp2 : (applyWaitLoop env mtw c c (mwpr / 3) p c).2.1 ≤
              p + mwpr / 3 :=
            applyWaitLoop_probes_le env mtw c c (mwpr / 3) p c
          have hc2 : applyAfterWait (applyWaitLoop env mtw c c (mwpr / 3) p c)
              ≤ mtw + 7 := by
            have hcl := applyWaitLoop_clock_le env mtw (mwpr / 3) p c c
              (le_refl c)
            have hcm : max c (mtw + 2) = mtw + 2 :=
              Nat.max_eq_right (by omega)
            rw [hcm] at hcl
            unfold applyAfterWait
            split <;> omega
          refine ⟨?_, ?_⟩
          · calc (applyRetryGo env mwpr mtw n (a + 1)
                  (applyWaitLoop env mtw c c (mwpr / 3) p c).2.1
                  (applyAfterWait
                    (applyWaitLoop env mtw c c (mwpr / 3) p c))).probeCalls
                ≤ (applyWaitLoop env mtw c c (mwpr / 3) p c).2.1 +
                  n * (mwpr / 3) := hw.1
              _ ≤ (p + mwpr / 3) + n * (mwpr / 3) :=
                  Nat.add_le_add_right hp2 _
              _ = p + (n + 1) * (mwpr / 3) := by ring
          · calc (applyRetryGo env mwpr mtw n (a + 1)
                  (applyWaitLoop env mtw c c (mwpr / 3) p c).2.1
                  (applyAfterWait
                    (applyWaitLoop env mtw c c (mwpr / 3) p c))).elapsed
                ≤ max (applyAfterWait
                    (applyWaitLoop env mtw c c (mwpr / 3) p c)) (mtw + 7) :=
                  hw.2
              _ = mtw + 7 := Nat.max_eq_right hc2
              _ ≤ max c (mtw + 7) := le_max_right _ _
        · exact ⟨Nat.le_add_right p _, le_max_left _ _⟩
      · exact ⟨Nat.le_add_right p _, le_max_left _ _⟩

/-- C3: the wait machinery is bounded by two independent ceilings and the
smaller effective bound wins.  The spec-modelled `awaitCondition` under
`RetryPolicy{pollInterval=1, maxPollsPerAttempt=3, maxAttempts=2,
maxTotalWait=10}` against a never-ready probe returns `Exhausted` after 6
probe invocations and 6 time units (≤ 10 and ≤ 2·3); in general its elapsed
time never exceeds `maxTotalWait` and its probe count never exceeds
`maxAttempts · maxPollsPerAttempt`; and the source's `applyWithRetry` loop
(`applyRetryGo`) likewise makes at most `maxRetries · ⌊maxWaitPerRetry/3⌋`
probes and never drives the clock past `maxTotalWait` plus its fixed 7 s of
post-wait sleeps — the outer retry loop cannot multiply the inner timeout
past the hard ceiling. -/
theorem C3_two_ceilings :
    (awaitCondition (fun _ => .Provisioning) ⟨1, 3, 2, 10⟩ =
        (.Exhausted, 6, 6) ∧ 6 ≤ 10 ∧ 6 ≤ 2 * 3) ∧
    (∀ (probe : Nat → ProbeResult) (pol : RetryPolicy),
        (awaitCondition probe pol).2.2 ≤ pol.maxTotalWait ∧
        (awaitCondition probe pol).2.1 ≤
          pol.maxAttempts * pol.maxPollsPerAttempt) ∧
    (∀ (env : ApplyEnv) (mwpr mtw fuel a p c : Nat),
        (applyRetryGo env mwpr mtw fuel a p c).probeCalls ≤
          p + fuel * (mwpr / 3) ∧
        (applyRetryGo env mwpr mtw fuel a p c).elapsed ≤ max c (mtw + 7)) := by
  refine ⟨by decide, ?_, ?_⟩
  · intro probe pol
    have h := awaitAttempts_bounds probe pol pol.maxAttempts 0 0 (Nat.zero_le _)
    exact ⟨h.1, by simpa using h.2⟩
  · intro env mwpr mtw fuel a p c
    exact applyRetryGo_bounds env mwpr mtw fuel a p c

/-! ## C10 — the node check swallows everything except the poll timeout -/

/-- The node-group block can only throw the fixed `Cluster has no nodes...`
error. -/
theorem ensureNodeGroups_error (env : NodesEnv) :
    ∀ m, ensureNodeGroups env = .error m → m = clusterHasNoNodesMsg := by
  intro m h
  unfold ensureNodeGroups at h
  repeat
    first
    | (injection h with h2; exact h2.symm)
    | injection h
    | split at h

/-- The readiness poll loop can only throw the fixed timeout error. -/
theorem nodesPollLoop_error (env : NodesEnv) :
    ∀ (fuel i : Nat) (m : String),
      nodesPollLoop env fuel i = .error m → m = nodesNotReadyMsg := by
  intro fuel
  induction fuel with
  | zero =>
    intro i m h
    unfold nodesPollLoop at h
    injection h with h2
    exact h2.symm
  | succ n ih =>
    intro i m h
    unfold nodesPollLoop at h
    split at h
    · injection h
    · exact ih (i + 1) m h

/-- The body of `checkAndEnsureNodes` throws only one of the two fixed
messages. -/
theorem checkAndEnsureNodesBody_error (env : NodesEnv) :
    ∀ m, checkAndEnsureNodesBody env = .error m →
      m = clusterHasNoNodesMsg ∨ m = nodesNotReadyMsg := by
  intro m h
  unfold checkAndEnsureNodesBody at h
  split at h
  · injection h
  · split at h
    · rename_i e heq
      injection h with h2
      exact Or.inl (h2.symm.trans (ensureNodeGroups_error env e heq))
    · exact Or.inr (nodesPollLoop_error env 60 0 m h)

/-- C10: `checkAndEnsureNodes` rethrows only an error whose message is the
`Nodes did not become ready...` poll-timeout message; every other error raised
inside it — in particular the `Cluster has no nodes. Please create a node
group and try again.` error thrown when node-group inspection or creation
fails — is caught, logged, and the function returns normally, so the pipeline
proceeds. -/
theorem C10_node_check_swallows_errors :
    (∀ (env : NodesEnv) (m : String),
        checkAndEnsureNodes env = .error m → m = nodesNotReadyMsg) ∧
    (∀ env : NodesEnv,
        checkAndEnsureNodesBody env = .error clusterHasNoNodesMsg →
        checkAndEnsureNodes env = .ok ()) := by
  constructor
  · intro env m h
    unfold checkAndEnsureNodes at h
    split at h
    · injection h
    · rename_i m2 heq
      split at h
      · rename_i hstr
        injection h with h2
        rcases checkAndEnsureNodesBody_error env m2 heq with hc | hn
        · rw [hc] at hstr
          exact absurd hstr (by decide)
        · exact h2.symm.trans hn
      · injection h
  · intro env h
    unfold checkAndEnsureNodes
    rw [h]
    rfl

/-- C10 witness: an environment whose cluster is empty and whose node-group
inspection throws — the `Cluster has no nodes...` error is swallowed and the
check returns normally. -/
theorem C10_witness : checkAndEnsureNodes noNodeGroupsEnv = .ok () :=
  C10_node_check_swallows_errors.2 noNodeGroupsEnv rfl

/-! ## C7 — the reversal pipeline is per-resource idempotent -/

/-- The deletion loop attempts every resource in its list, whatever the
individual outcomes were. -/
theorem deleteResourcesLoop_length (env : DeleteEnv) :
    ∀ (rs : List (String × String)) (st : ClusterState),
      (deleteResourcesLoop env rs st).1.length = rs.length := by
  intro rs
  induction rs with
  | nil => intro st; rfl
  | cons r rest ih =>
    intro st
    show ((kubectlDeleteIgnoreNotFound env st r).1 ::
      (deleteResourcesLoop env rest
        (kubectlDeleteIgnoreNotFound env st r).2).1).length = rest.length + 1
    rw [List.length_cons, ih]

/-- After the loop, exactly the resources that were present and either not in
the list or blocked remain. -/
theorem deleteResourcesLoop_state (env : DeleteEnv) :
    ∀ (rs : List (String × String)) (st : ClusterState),
      (deleteResourcesLoop env rs st).2.present =
        st.present.filter (fun x => decide (x ∉ rs) || env.blocked x) := by
  intro rs
  induction rs with
  | nil =>
    intro st
    show st.present = _
    symm
    apply List.filter_eq_self.mpr
    intro a _
    simp
  | cons r rest ih =>
    intro st
    show (deleteResourcesLoop env rest
      (kubectlDeleteIgnoreNotFound env st r).2).2.present = _
    rw [ih]
    unfold kubectlDeleteIgnoreNotFound
    by_cases hmem : r ∈ st.present
    · by_cases hbl : env.blocked r = true
      · rw [if_pos hmem, if_pos hbl]
        apply List.filter_congr
        intro x _
        by_cases hxr : x = r
        · subst hxr
          simp [hbl]
        · simp [List.mem_cons, hxr]
      · rw [if_pos hmem, if_neg hbl]
        show (st.present.filter (fun x => decide (x ≠ r))).filter _ = _
        rw [List.filter_filter]
        apply List.filter_congr
        intro x _
        by_cases hxr : x = r
        · subst hxr
          simp [hbl]
        · simp [List.mem_cons, hxr]
    · rw [if_neg hmem]
      apply List.filter_congr
      intro x hx
      have hxr : x ≠ r := fun hh => hmem (hh ▸ hx)
      simp [List.mem_cons, hxr]

/-- With pairwise-distinct resources, each outcome depends only on whether the
resource was present at the start and whether its delete is blocked:
`ok` for absent or deletable resources, the error for blocked present ones. -/
theorem deleteResourcesLoop_outcomes (env : DeleteEnv) :
    ∀ (rs : List (String × String)) (st : ClusterState),
      rs.Pairwise (· ≠ ·) →
      (deleteResourcesLoop env rs st).1 =
        rs.map (fun r =>
          if r ∈ st.present ∧ env.blocked r = true then
            Except.error (env.errMsg r)
          else Except.ok ()) := by
  intro rs
  induction rs with
  | nil => intro st _; rfl
  | cons r rest ih =>
    intro st hp
    rw [List.pairwise_cons] at hp
    show (kubectlDeleteIgnoreNotFound env st r).1 ::
        (deleteResourcesLoop env rest
          (kubectlDeleteIgnoreNotFound env st r).2).1 = _
    rw [List.map_cons]
    unfold kubectlDeleteIgnoreNotFound
    by_cases hmem : r ∈ st.present
    · by_cases hbl : env.blocked r = true
      · rw [if_pos hmem, if_pos hbl, if_pos ⟨hmem, hbl⟩]
        exact congrArg _ (ih st hp.2)
      · rw [if_pos hmem, if_neg hbl, if_neg (fun hc => hbl hc.2)]
        refine congrArg _ ?_
        rw [ih ⟨st.present.filter (fun x => decide (x ≠ r))⟩ hp.2]
        apply List.map_congr_left
        intro x hx
        have hxr : x ≠ r := (hp.1 x hx).symm
        have hmemiff :
            x ∈ st.present.filter (fun y => decide (y ≠ r)) ↔
              x ∈ st.present := by
          simp [List.mem_filter, hxr]
        by_cases hx2 : x ∈ st.present ∧ env.blocked x = true
        · rw [if_pos ⟨hmemiff.mpr hx2.1, hx2.2⟩, if_pos hx2]
        · rw [if_neg (fun hc => hx2 ⟨hmemiff.mp hc.1, hc.2⟩), if_neg hx2]
    · rw [if_neg hmem, if_neg (fun hc => hmem hc.1)]
      exact congrArg _ (ih st hp.2)

/-- The four delete targets are pairwise distinct (their kinds differ). -/
theorem deleteTargets_pairwise (appName : String) :
    (deleteTargets appName).Pairwise (· ≠ ·) := by
  have h : ∀ (k1 k2 n1 n2 : String), k1 ≠ k2 → (k1, n1) ≠ (k2, n2) := by
    intro k1 k2 n1 n2 hk heq
    exact hk (congrArg Prod.fst heq)
  refine List.Pairwise.cons ?_ (List.Pairwise.cons ?_ (List.Pairwise.cons ?_
    (List.Pairwise.cons ?_ List.Pairwise.nil)))
  · intro x hx
    simp only [List.mem_cons, List.not_mem_nil, or_false] at hx
    rcases hx with rfl | rfl | rfl
    · exact h _ _ _ _ (by decide)
    · exact h _ _ _ _ (by decide)
    · exact h _ _ _ _ (by decide)
  · intro x hx
    simp only [List.mem_cons, List.not_mem_nil, or_false] at hx
    rcases hx with rfl | rfl
    · exact h _ _ _ _ (by decide)
    · exact h _ _ _ _ (by decide)
  · intro x hx
    simp only [List.mem_cons, List.not_mem_nil, or_false] at hx
    rcases hx with rfl
    exact h _ _ _ _ (by decide)
  · intro x hx
    exact absurd hx (List.not_mem_nil x)

/-- `ClusterState` is its resource list. -/
theorem clusterStateEq : ∀ {s1 s2 : ClusterState},
    s1.present = s2.present → s1 = s2 := by
  intro s1 s2 h
  cases s1
  cases s2
  simpa using h

/-- State formula for the whole deletion pass. -/
theorem runDeletion_state (env : DeleteEnv) (appName : String)
    (st : ClusterState) :
    (runDeletion env appName st).2.present =
      st.present.filter
        (fun x => decide (x ∉ deleteTargets appName) || env.blocked x) :=
  deleteResourcesLoop_state env (deleteTargets appName) st

/-- Outcome formula for the whole deletion pass. -/
theorem runDeletion_outcomes (env : DeleteEnv) (appName : String)
    (st : ClusterState) :
    (runDeletion env appName st).1 =
      (deleteTargets appName).map (fun r =>
        if r ∈ st.present ∧ env.blocked r = true then
          Except.error (env.errMsg r)
        else Except.ok ()) :=
  deleteResourcesLoop_outcomes env (deleteTargets appName) st
    (deleteTargets_pairwise appName)

/-- C7: `kubectl delete --ignore-not-found` on an absent resource succeeds and
changes nothing; the deletion loop always attempts all four resources, a
failing delete never stopping the rest; and re-running the whole deletion on
its own result state reproduces the same outcomes and the same final state. -/
theorem C7_delete_if_exists_idempotent :
    (∀ (env : DeleteEnv) (st : ClusterState) (r : String × String),
        r ∉ st.present →
        kubectlDeleteIgnoreNotFound env st r = (.ok (), st)) ∧
    (∀ (env : DeleteEnv) (appName : String) (st : ClusterState),
        (runDeletion env appName st).1.length = 4) ∧
    (∀ (env : DeleteEnv) (appName : String) (st : ClusterState),
        runDeletion env appName ((runDeletion env appName st).2) =
          runDeletion env appName st) := by
  refine ⟨?_, ?_, ?_⟩
  · intro env st r h
    unfold kubectlDeleteIgnoreNotFound
    rw [if_neg h]
  · intro env appName st
    show (deleteResourcesLoop env (deleteTargets appName) st).1.length = 4
    rw [deleteResourcesLoop_length]
    rfl
  · intro env appName st
    have hst1 := runDeletion_state env appName st
    have hstates : (runDeletion env appName
        ((runDeletion env appName st).2)).2 =
          (runDeletion env appName st).2 := by
      apply clusterStateEq
      rw [runDeletion_state env appName ((runDeletion env appName st).2), hst1]
      exact List.filter_eq_self.mpr (fun a ha => (List.mem_filter.mp ha).2)
    have houts : (runDeletion env appName
        ((runDeletion env appName st).2)).1 =
          (runDeletion env appName st).1 := by
      rw [runDeletion_outcomes env appName ((runDeletion env appName st).2),
        runDeletion_outcomes env appName st]
      apply List.map_congr_left
      intro x hx
      by_cases hx2 : x ∈ st.present ∧ env.blocked x = true
      · have hmem1 : x ∈ (runDeletion env appName st).2.present := by
          rw [hst1]
          refine List.mem_filter.mpr ⟨hx2.1, ?_⟩
          simp [hx2.2]
        rw [if_pos ⟨hmem1, hx2.2⟩, if_pos hx2]
      · refine (if_neg ?_).trans (if_neg hx2).symm
        rintro ⟨hin1, hb⟩
        rw [hst1] at hin1
        rcases List.mem_filter.mp hin1 with ⟨hin, hcond⟩
        rcases Bool.or_eq_true_iff.mp hcond with hno | hb2
        · exact absurd hx (by simpa using hno)
        · exact hx2 ⟨hin, hb⟩
    exact Prod.ext houts hstates

/-- C7 witness: deleting an absent deployment succeeds and leaves the cluster
unchanged. -/
theorem C7_witness :
    kubectlDeleteIgnoreNotFound ⟨fun _ => false, fun _ => "err"⟩ ⟨[]⟩
        ("deployment", "myapp") = (.ok (), ⟨[]⟩) :=
  C7_delete_if_exists_idempotent.1 ⟨fun _ => false, fun _ => "err"⟩ ⟨[]⟩
    ("deployment", "myapp") (by simp)

/-! ## C8 — diagnostics are best-effort, with one nested exception -/

/-- C8 counterexample: in `diagnoseDeploymentFailure`, a failure of the
pod-events `describe` call prevents the log fetch from running at all, even
though the log fetch itself would have succeeded; the same environment with a
succeeding describe call does reach the log fetch — so the collection calls
are not all independently guarded. -/
theorem C8_counterexample :
    (diagnoseDeploymentFailure
        ⟨.ok "myapp-abc Running", .ok "myapp-abc12",
          .error "connection reset", .ok ()⟩).logsAttempted = false ∧
    (diagnoseDeploymentFailure
        ⟨.ok "myapp-abc Running", .ok "myapp-abc12",
          .ok (), .ok ()⟩).logsAttempted = true := by
  decide

/-- C8 (amended): every collection block of `showALBDiagnostics` is
independently guarded — each section of its report depends only on that
section's own call result — and the routine is total; `diagnoseDeploymentFailure`
is also total and its pod-status block is independent of the events/logs
block, but its log fetch is nested inside the pod-events `try`: the logs call
runs exactly when the pod-name query succeeded with a nonempty name and the
events describe call succeeded (a failure of the log fetch itself aborts
nothing further). -/
theorem C8_guarded_collection :
    (∀ (e1 e2 : ALBDiagEnv),
        (e1.podStatus = e2.podStatus →
          (showALBDiagnostics e1).podStatusShown =
            (showALBDiagnostics e2).podStatusShown) ∧
        (e1.podInfo = e2.podInfo →
          (showALBDiagnostics e1).podInfoShown =
            (showALBDiagnostics e2).podInfoShown) ∧
        (e1.podLogs = e2.podLogs →
          (showALBDiagnostics e1).logsShown =
            (showALBDiagnostics e2).logsShown) ∧
        (e1.events = e2.events →
          (showALBDiagnostics e1).eventsShown =
            (showALBDiagnostics e2).eventsShown) ∧
        (e1.nodes = e2.nodes →
          (showALBDiagnostics e1).nodesShown =
            (showALBDiagnostics e2).nodesShown) ∧
        (e1.nodeResources = e2.nodeResources →
          (showALBDiagnostics e1).nodeResourcesShown =
            (showALBDiagnostics e2).nodeResourcesShown) ∧
        (e1.nodeGroups = e2.nodeGroups →
          (showALBDiagnostics e1).nodeGroupsShown =
            (showALBDiagnostics e2).nodeGroupsShown)) ∧
    (∀ (e1 e2 : DiagnoseEnv), e1.podsOut = e2.podsOut →
        (diagnoseDeploymentFailure e1).podsFetched =
          (diagnoseDeploymentFailure e2).podsFetched ∧
        (diagnoseDeploymentFailure e1).issues =
          (diagnoseDeploymentFailure e2).issues) ∧
    (∀ env : DiagnoseEnv,
        (diagnoseDeploymentFailure env).logsAttempted = true ↔
          ∃ nameOut, env.podNameOut = .ok nameOut ∧ ¬jsTrim nameOut = "" ∧
            env.describeEventsOut = .ok ()) := by
  refine ⟨?_, ?_, ?_⟩
  · intro e1 e2
    refine ⟨?_, ?_, ?_, ?_, ?_, ?_, ?_⟩ <;>
      (intro h; simp [showALBDiagnostics, h])
  · intro e1 e2 h
    constructor <;> simp [diagnoseDeploymentFailure, h]
  · intro env
    unfold diagnoseDeploymentFailure
    cases hname : env.podNameOut with
    | error e => simp [hname]
    | ok nameOut =>
      by_cases ht : jsTrim nameOut == ""
      · simp only [beq_iff_eq] at ht
        simp [ht]
      · have ht2 : ¬jsTrim nameOut = "" := by
          simpa [beq_iff_eq] using ht
        cases hev : env.describeEventsOut with
        | error e => simp [ht2, hev]
        | ok u =>
          cases hlog : env.logsOut with
          | error e => simp [ht2, hev, hlog]
          | ok v => simp [ht2, hev, hlog]

/-- C8 witness: two environments sharing only the pod-logs result — the log
section of the ALB diagnostics report is the same in both, whatever happened
to every other collection call. -/
theorem C8_witness :
    (showALBDiagnostics ⟨none, .error "x", .ok "the log tail", .error "y",
        .error "z", .error "w", .error "v"⟩).logsShown =
      (showALBDiagnostics ⟨some ⟨"Running", none, none⟩, .ok "pods",
        .ok "the log tail", .ok "ev", .ok "nodes", .ok "top", .ok "ng"⟩).logsShown :=
  (C8_guarded_collection.1
    ⟨none, .error "x", .ok "the log tail", .error "y", .error "z", .error "w",
      .error "v"⟩
    ⟨some ⟨"Running", none, none⟩, .ok "pods", .ok "the log tail", .ok "ev",
      .ok "nodes", .ok "top", .ok "ng"⟩).2.2.1 rfl

/-! ## C2 — certificate terminal status observed mid-wait -/

/-- C2: on the spec's status sequence — entry `PENDING_VALIDATION`, five
pending polls, then `VALIDATION_TIMED_OUT` — the wait loop does stop polling
immediately at the terminal status (6 describes, not 60), but no replacement
certificate is requested (`newCertRequested = false`), although the source
logs `Will attempt to request new certificate...` and comments `Fall through
to FAILED handling`; the `RequestCertificateCommand` is reachable only when
the terminal status is already the one returned by the describe at entry. -/
theorem C2_midwait_timeout_requests_nothing :
    certFlow certTimeoutEnv =
      { pollsMade := 6, newCertRequested := false, httpsEnabled := false,
        configCertARNUpdated := false } ∧
    (certFlow { certTimeoutEnv with
        initialStatus := "VALIDATION_TIMED_OUT" }).newCertRequested = true := by
  decide

/-! ## C6 — what the pipeline writes into the config -/

/-- C6 counterexample: the claim says the config value passed to `deployToEKS`
is never mutated after the pipeline starts, but `deployToEKS` itself sets
`config.artifactDir` (deploy.ts:26): on a config with no artifact directory
the config after the write differs from the config before it. -/
theorem C6_counterexample :
    (deployToEKSConfigWrites baseCfg "/work/ekspressjs" none).artifactDir =
        some "/work/ekspressjs" ∧
    baseCfg.artifactDir = none ∧
    deployToEKSConfigWrites baseCfg "/work/ekspressjs" none ≠ baseCfg := by
  decide

/-- C6 (amended): the pipeline's only writes into the config are
`artifactDir` (set by `deployToEKS` at start) and `domain.certificateARN`
(set by `deployToEKS` when the domain step returns an ARN and none was set,
and overwritten by `waitForIngressAndSetupDNS` when a replacement certificate
validates) — every other field, including every other domain sub-field, is
preserved by both write sites. -/
theorem C6_config_frame :
    (∀ (c : DeployCfg) (dir : String) (res : Option String),
        (deployToEKSConfigWrites c dir res).appType = c.appType ∧
        (deployToEKSConfigWrites c dir res).region = c.region ∧
        (deployToEKSConfigWrites c dir res).clusterName = c.clusterName ∧
        (deployToEKSConfigWrites c dir res).appName = c.appName ∧
        (deployToEKSConfigWrites c dir res).port = c.port ∧
        (deployToEKSConfigWrites c dir res).replicas = c.replicas ∧
        (deployToEKSConfigWrites c dir res).accessKeyId = c.accessKeyId ∧
        (deployToEKSConfigWrites c dir res).secretAccessKey =
          c.secretAccessKey ∧
        (deployToEKSConfigWrites c dir res).imageRegistry = c.imageRegistry ∧
        (deployToEKSConfigWrites c dir res).nspace = c.nspace ∧
        (deployToEKSConfigWrites c dir res).enableIngress = c.enableIngress ∧
        (deployToEKSConfigWrites c dir res).healthCheckPath =
          c.healthCheckPath ∧
        (deployToEKSConfigWrites c dir res).envPairs = c.envPairs ∧
        (deployToEKSConfigWrites c dir res).secretPairs = c.secretPairs ∧
        (deployToEKSConfigWrites c dir res).artifactDir = some dir ∧
        domainFrameEq c.domain (deployToEKSConfigWrites c dir res).domain) ∧
    (∀ (c : DeployCfg) (env : CertEnv),
        (ingressWaitConfigWrites c env).appType = c.appType ∧
        (ingressWaitConfigWrites c env).region = c.region ∧
        (ingressWaitConfigWrites c env).clusterName = c.clusterName ∧
        (ingressWaitConfigWrites c env).appName = c.appName ∧
        (ingressWaitConfigWrites c env).port = c.port ∧
        (ingressWaitConfigWrites c env).replicas = c.replicas ∧
        (ingressWaitConfigWrites c env).accessKeyId = c.accessKeyId ∧
        (ingressWaitConfigWrites c env).secretAccessKey = c.secretAccessKey ∧
        (ingressWaitConfigWrites c env).imageRegistry = c.imageRegistry ∧
        (ingressWaitConfigWrites c env).nspace = c.nspace ∧
        (ingressWaitConfigWrites c env).enableIngress = c.enableIngress ∧
        (ingressWaitConfigWrites c env).healthCheckPath = c.healthCheckPath ∧
        (ingressWaitConfigWrites c env).envPairs = c.envPairs ∧
        (ingressWaitConfigWrites c env).secretPairs = c.secretPairs ∧
        (ingressWaitConfigWrites c env).artifactDir = c.artifactDir ∧
        domainFrameEq c.domain (ingressWaitConfigWrites c env).domain) := by
  constructor
  · intro c dir res
    unfold deployToEKSConfigWrites
    cases hd : c.domain with
    | none => cases res <;> simp [domainFrameEq, hd]
    | some d =>
      cases res with
      | none => simp [domainFrameEq, hd]
      | some arn =>
        by_cases h : (d.enableSSL && d.certificateARN.isNone) = true
        · simp [h, domainFrameEq, hd]
        · simp [h, domainFrameEq, hd]
  · intro c env
    unfold ingressWaitConfigWrites
    cases hd : c.domain with
    | none => simp [domainFrameEq, hd]
    | some d =>
      by_cases h : (certFlow env).configCertARNUpdated = true
      · simp [h, domainFrameEq, hd]
      · simp [h, domainFrameEq, hd]

end Ekspress
